import Mathlib

/-!
Shallow embedding of the traffic simulator sources (navigation.py,
simulation.py, cars.py).  Coordinates and bins are exact rationals and
naturals; Euclidean distances returned to callers live in ℝ.  The repository
imports a models module that is not among the source files; the handful of
helpers taken from it (magnitude, upcoming_linspace, the parallelism test,
the route decompiler) are modelled from the spec and carry a doc comment
saying so.  Everything else is translated from the source files.
-/

namespace Traffic

/-- Modelled from the spec (models.magnitude is not among the source files):
Euclidean magnitude of a planar vector, used by navigation.py for every
obstacle distance. -/
noncomputable def magnitude (v : ℚ × ℚ) : ℝ :=
  Real.sqrt ((v.1 : ℝ) ^ 2 + (v.2 : ℝ) ^ 2)

/-- numpy.isclose with rtol = 1e-6 as passed throughout navigation.py and
numpy's default atol = 1e-8: the test is abs (a - b) ≤ atol + rtol * abs b,
exact on ℚ. -/
def isclose (a b : ℚ) : Bool :=
  |a - b| ≤ 1 / 100000000 + (1 / 1000000) * |b|

/-- numpy.linspace between two sample values; the sampling density is a model
parameter (six evenly spaced points, endpoints included). -/
def linspace (a b : ℚ) : List ℚ :=
  (List.range 6).map fun i => a + (b - a) * i / 5

/-- A car as navigation.py reads it off the cars dataframe: a row name,
position, spatial bin, decompiled path, route and destination node. -/
structure Car where
  name : ℕ
  x : ℚ
  y : ℚ
  xbin : ℕ
  ybin : ℕ
  xpath : List ℚ
  ypath : List ℚ
  route : List ℕ
  destination : ℕ
  deriving DecidableEq

/-- FrontView.determine_view: the first look_ahead_nodes (three) waypoints of
the car's path; the empty list models the source's False for an exhausted
path. -/
def determine_view (car : Car) : List (ℚ × ℚ) :=
  if car.xpath ≠ [] ∧ car.ypath ≠ [] then
    (car.xpath.take 3).zip (car.ypath.take 3)
  else []

/-- The FrontView object: the car together with its computed view window. -/
structure FrontView where
  car : Car
  view : List (ℚ × ℚ)

/-- FrontView.__init__ for a car row. -/
def mkFrontView (car : Car) : FrontView :=
  ⟨car, determine_view car⟩

/-- Modelled from the spec (models.upcoming_linspace is not among the source
files): the look-ahead strip, axis by axis, as linear interpolation sampled
from the car's current position through each waypoint of the view. -/
def upcoming_linspace (fv : FrontView) : List ℚ × List ℚ :=
  let xs := fv.car.x :: fv.view.map Prod.fst
  let ys := fv.car.y :: fv.view.map Prod.snd
  (((xs.zip xs.tail).map fun p => linspace p.1 p.2).flatten,
   ((ys.zip ys.tail).map fun p => linspace p.1 p.2).flatten)

/-- The same-bin candidate mask of navigation.car_obstacles and
navigation.light_obstacles. -/
def same_bin (a : Car) (xbin ybin : ℕ) : Bool :=
  a.xbin == xbin && a.ybin == ybin

/-- The tolerance-based strip containment test of navigation.car_obstacles:
close to some sample of the x linspace and to some sample of the y linspace. -/
def in_strip (fv : FrontView) (x y : ℚ) : Bool :=
  ((upcoming_linspace fv).1.any fun s => isclose s x) &&
  ((upcoming_linspace fv).2.any fun s => isclose s y)

/-- navigation.car_obstacles.  The source's candidate loop returns in both
branches of its if, so only the first same-bin candidate is ever examined;
the match below mirrors that. -/
noncomputable def car_obstacles (frontview : FrontView) (cars : List Car) : Option ℝ :=
  let x_space := (upcoming_linspace frontview).1
  let y_space := (upcoming_linspace frontview).2
  if (x_space.any fun s => s != 0) && (y_space.any fun s => s != 0) then
    let other_cars := cars.filter fun c => c.name ≠ frontview.car.name
    let nearby_cars := other_cars.filter fun c =>
      same_bin c frontview.car.xbin frontview.car.ybin
    match nearby_cars with
    | [] => none
    | car :: _ =>
      if in_strip frontview car.x car.y then
        some (magnitude (car.x - frontview.car.x, car.y - frontview.car.y))
      else none
  else none

/-- C10: any distance car_obstacles returns is the distance to a candidate of
the passed collection other than the querying vehicle itself, one sharing its
bin and lying in the look-ahead strip. -/
theorem car_obstacles_never_self (fv : FrontView) (cars : List Car) (r : ℝ)
    (h : car_obstacles fv cars = some r) :
    ∃ c ∈ cars, c.name ≠ fv.car.name ∧
      same_bin c fv.car.xbin fv.car.ybin = true ∧
      in_strip fv c.x c.y = true ∧
      r = magnitude (c.x - fv.car.x, c.y - fv.car.y) := by
  unfold car_obstacles at h
  simp only [] at h
  by_cases h1 : (((upcoming_linspace fv).1.any fun s => s != 0) &&
      ((upcoming_linspace fv).2.any fun s => s != 0)) = true
  · rw [if_pos h1] at h
    rcases hl : (cars.filter fun c => decide (c.name ≠ fv.car.name)).filter
        (fun c => same_bin c fv.car.xbin fv.car.ybin) with _ | ⟨c, rest⟩
    · rw [hl] at h; exact absurd h (by simp)
    · rw [hl] at h
      simp only [] at h
      have hc : c ∈ (cars.filter fun c => decide (c.name ≠ fv.car.name)).filter
          (fun c => same_bin c fv.car.xbin fv.car.ybin) := by
        rw [hl]; exact List.mem_cons_self c rest
      have hc2 := List.mem_filter.mp hc
      have hc3 := List.mem_filter.mp hc2.1
      refine ⟨c, hc3.1, by simpa using hc3.2, hc2.2, ?_, ?_⟩
      · by_cases h2 : in_strip fv c.x c.y = true
        · exact h2
        · rw [if_neg h2] at h; exact absurd h (by simp)
      · by_cases h2 : in_strip fv c.x c.y = true
        · rw [if_pos h2] at h; exact (Option.some_injective _ h).symm
        · rw [if_neg h2] at h; exact absurd h (by simp)
  · rw [if_neg h1] at h; exact absurd h (by simp)

/-- Evaluation helper: the magnitude of a vector whose squared length is a
perfect rational square. -/
lemma magnitude_eval (a b c : ℚ) (hc : 0 ≤ c) (h : a ^ 2 + b ^ 2 = c ^ 2) :
    magnitude (a, b) = (c : ℝ) := by
  unfold magnitude
  have h2 : ((a : ℝ)) ^ 2 + (b : ℝ) ^ 2 = (c : ℝ) ^ 2 := by exact_mod_cast h
  rw [h2]
  exact Real.sqrt_sq (by exact_mod_cast hc)

/-- The querying car of the two-candidate scenario: at (0, 1), path straight
along y = 1 through x = 10, 20, 30, bin (0, 0). -/
def carC : Car :=
  ⟨0, 0, 1, 0, 0, [10, 20, 30], [1, 1, 1], [0], 99⟩

/-- The farther candidate: at (4, 1), on the strip, same bin; first in
iteration order after the querying car is dropped. -/
def carF : Car :=
  ⟨1, 4, 1, 0, 0, [], [], [], 99⟩

/-- The nearer candidate: at (2, 1), on the strip, same bin; iterated after
carF. -/
def carN : Car :=
  ⟨2, 2, 1, 0, 0, [], [], [], 99⟩

/-- The front view of carC. -/
def fvC : FrontView := mkFrontView carC

/-- List.range 6, evaluated. -/
lemma range6 : List.range 6 = [0, 1, 2, 3, 4, 5] := rfl

/-- The sampled strip of fvC: x from 0 through 30, y constantly 1. -/
lemma upcoming_linspace_fvC :
    upcoming_linspace fvC =
      ([0, 2, 4, 6, 8, 10, 10, 12, 14, 16, 18, 20, 20, 22, 24, 26, 28, 30],
       [1, 1, 1, 1, 1, 1, 1, 1, 1, 1, 1, 1, 1, 1, 1, 1, 1, 1]) := by
  have hv : fvC.view = [(10, 1), (20, 1), (30, 1)] := rfl
  have hx : fvC.car.x = 0 := rfl
  have hy : fvC.car.y = 1 := rfl
  unfold upcoming_linspace linspace
  rw [hv, hx, hy]
  simp only [range6, List.map_cons, List.map_nil, List.tail_cons, List.zip_cons_cons,
    List.zip_nil_right, List.flatten]
  norm_num

/-- The nearer candidate carN lies inside the look-ahead strip of fvC. -/
lemma in_strip_carN : in_strip fvC carN.x carN.y = true := by
  unfold in_strip
  rw [upcoming_linspace_fvC]
  norm_num [isclose, List.any_cons, carN]

/-- car_obstacles on the two-candidate scenario returns the distance to carF,
the first candidate iterated. -/
lemma car_obstacles_fvC_eval :
    car_obstacles fvC [carC, carF, carN] = some (magnitude (4, 0)) := by
  unfold car_obstacles
  simp only []
  rw [if_pos]
  · have hfil : ([carC, carF, carN].filter fun c => decide (c.name ≠ fvC.car.name)).filter
        (fun c => same_bin c fvC.car.xbin fvC.car.ybin) = [carF, carN] := by
      decide
    rw [hfil]
    simp only []
    rw [if_pos]
    · norm_num [carF, fvC, mkFrontView, carC]
    · unfold in_strip
      rw [upcoming_linspace_fvC]
      norm_num [isclose, List.any_cons, carF]
  · rw [upcoming_linspace_fvC]
    norm_num [List.any_cons]

/-- C1 (failing input): with two same-bin candidates both inside the
look-ahead strip, car_obstacles returns the distance 4 to the first candidate
it iterates, although the distinct, same-bin, in-strip candidate carN sits at
distance 2; the nearest qualifying distance is never computed. -/
theorem c1_returns_first_candidate_not_nearest :
    car_obstacles fvC [carC, carF, carN] = some (magnitude (4, 0)) ∧
    magnitude (4, 0) = 4 ∧
    carN.name ≠ carC.name ∧
    same_bin carN carC.xbin carC.ybin = true ∧
    in_strip fvC carN.x carN.y = true ∧
    magnitude (carN.x - carC.x, carN.y - carC.y) = 2 := by
  refine ⟨car_obstacles_fvC_eval, ?_, by decide, by decide, in_strip_carN, ?_⟩
  · have := magnitude_eval 4 0 4 (by norm_num) (by norm_num)
    simpa using this
  · have h2 : carN.x - carC.x = 2 := by norm_num [carN, carC]
    have h3 : carN.y - carC.y = 0 := by norm_num [carN, carC]
    rw [h2, h3]
    have := magnitude_eval 2 0 2 (by norm_num) (by norm_num)
    simpa using this

/-- C10 witness: the guarantee instantiated on the concrete two-candidate
scenario. -/
theorem car_obstacles_never_self_witness :
    ∃ c ∈ [carC, carF, carN], c.name ≠ fvC.car.name ∧
      same_bin c fvC.car.xbin fvC.car.ybin = true ∧
      in_strip fvC c.x c.y = true ∧
      magnitude (4, 0) = magnitude (c.x - fvC.car.x, c.y - fvC.car.y) :=
  car_obstacles_never_self fvC [carC, carF, carN] (magnitude (4, 0)) car_obstacles_fvC_eval

/-- The external road graph (osmnx/networkx), as the MapGraph collaborator of
the spec: node positions, the directed multigraph edge list, neighbour
iteration, weighted shortest paths, the geometry and length of the shortest
parallel edge, and the streets_per_node table.  navigation.py only queries
it. -/
structure MapGraph where
  pos : ℕ → ℚ × ℚ
  edges : List (ℕ × ℕ)
  adj : ℕ → List ℕ
  shortestPath : ℕ → ℕ → List ℕ
  edgeGeometry : ℕ → ℕ → Option (List (ℚ × ℚ))
  edgeLength : ℕ → ℕ → Option ℚ
  streets_per_node : List (ℕ × ℕ)

/-- navigation.get_position_of_node. -/
def get_position_of_node (g : MapGraph) (node : ℕ) : ℚ × ℚ :=
  g.pos node

/-- FrontView.crossed_node_event: numpy.isclose on both axes against the first
waypoint of the view; the source indexes view[0], so an empty view raises,
modelled by none. -/
def crossed_node_event (fv : FrontView) : Option Bool :=
  fv.view.head?.map fun v0 => isclose v0.1 fv.car.x && isclose v0.2 fv.car.y

/-- FrontView.upcoming_node_position: the first waypoint, or on a crossing
event the second waypoint, falling back to the destination position when the
view is short or exhausted. -/
def upcoming_node_position (g : MapGraph) (fv : FrontView) : ℚ × ℚ :=
  match fv.view with
  | [] => get_position_of_node g fv.car.destination
  | v0 :: rest =>
    if crossed_node_event fv = some true then
      match rest with
      | v1 :: _ => v1
      | [] => get_position_of_node g fv.car.destination
    else v0

/-- C6: a non-empty view yields a crossing event exactly when both coordinates
are numpy-close (rtol 1e-6) to the first waypoint, and on a crossing the
position used next is the second waypoint, or the destination position when
the view holds fewer than two waypoints. -/
theorem crossed_node_event_matches_first_waypoint (g : MapGraph) (fv : FrontView)
    (v0 : ℚ × ℚ) (rest : List (ℚ × ℚ)) (hview : fv.view = v0 :: rest) :
    (crossed_node_event fv = some true ↔
      (isclose v0.1 fv.car.x = true ∧ isclose v0.2 fv.car.y = true)) ∧
    (crossed_node_event fv = some true →
      upcoming_node_position g fv =
        rest.head?.getD (get_position_of_node g fv.car.destination)) := by
  have hev : crossed_node_event fv =
      some (isclose v0.1 fv.car.x && isclose v0.2 fv.car.y) := by
    unfold crossed_node_event
    rw [hview]
    rfl
  constructor
  · rw [hev]
    constructor
    · intro h
      have := Option.some_injective _ h
      exact And.intro (by
        cases hx : isclose v0.1 fv.car.x <;> simp [hx] at this ⊢) (by
        cases hy : isclose v0.2 fv.car.y
        · simp [hy] at this
        · rfl)
    · intro h
      rw [h.1, h.2]
      rfl
  · intro h
    unfold upcoming_node_position
    rw [hview]
    simp only []
    rw [if_pos h]
    cases rest <;> rfl

/-- A minimal concrete MapGraph for witnesses that need one. -/
def trivialGraph : MapGraph :=
  ⟨fun _ => (0, 0), [], fun _ => [], fun _ _ => [], fun _ _ => none, fun _ _ => none, []⟩

/-- A car sitting exactly on its first waypoint (10, 1). -/
def carW : Car :=
  ⟨3, 10, 1, 0, 0, [10, 20, 30], [1, 1, 1], [0], 99⟩

/-- The front view of carW. -/
def fvW : FrontView := mkFrontView carW

/-- C6 witness: the crossing-event characterisation instantiated on carW,
which sits exactly on its first waypoint. -/
theorem crossed_node_event_witness :
    (crossed_node_event fvW = some true ↔
      (isclose 10 fvW.car.x = true ∧ isclose 1 fvW.car.y = true)) ∧
    (crossed_node_event fvW = some true →
      upcoming_node_position trivialGraph fvW =
        [((20 : ℚ), (1 : ℚ)), (30, 1)].head?.getD
          (get_position_of_node trivialGraph fvW.car.destination)) :=
  crossed_node_event_matches_first_waypoint trivialGraph fvW (10, 1) [(20, 1), (30, 1)] rfl

/-- simulation.py: the time step. -/
def dt : ℚ := 1 / 1000

/-- simulation.py: the speed limit. -/
def speed_limit : ℚ := 30 / 1000000

/-- simulation.py: the stopping distance. -/
def stop_distance : ℚ := 3 / 1000000

/-- simulation.py: the free distance. -/
def free_distance : ℚ := 5 / 1000000

/-- simulation.py: the default acceleration. -/
def default_acceleration : ℚ := 3 / 1000000

open Classical in
/-- simulation.road_curvature_factor; math.log is the natural logarithm. -/
noncomputable def road_curvature_factor (theta d : ℝ) : ℝ :=
  if theta = 0 then 1
  else
    if 0 < d ∧ d < (free_distance : ℝ) then
      Real.log (d / (2 * theta / Real.pi)) /
        Real.log ((free_distance : ℝ) / (2 * theta / Real.pi))
    else 1

open Classical in
/-- simulation.car_obstacle_factor; note that the source's ramp condition
compares the distance d against speed_limit, not against free_distance. -/
noncomputable def car_obstacle_factor (d : ℝ) : ℝ :=
  if (stop_distance : ℝ) < d ∧ d < (speed_limit : ℝ) then
    Real.log (d / (stop_distance : ℝ)) /
      Real.log ((free_distance : ℝ) / (stop_distance : ℝ))
  else
    if d < (stop_distance : ℝ) then 0
    else 1

/-- C2 (amended): road_curvature_factor is exactly 1 for every d ≥
free_distance, while car_obstacle_factor is exactly 1 only from speed_limit
on: for free_distance ≤ d < speed_limit it keeps following the logarithmic
ramp ln(d/stop_distance)/ln(free_distance/stop_distance). -/
theorem factors_beyond_free_distance :
    (∀ theta d : ℝ, (free_distance : ℝ) ≤ d → road_curvature_factor theta d = 1) ∧
    (∀ d : ℝ, (speed_limit : ℝ) ≤ d → car_obstacle_factor d = 1) ∧
    (∀ d : ℝ, (free_distance : ℝ) ≤ d → d < (speed_limit : ℝ) →
      car_obstacle_factor d =
        Real.log (d / (stop_distance : ℝ)) /
          Real.log ((free_distance : ℝ) / (stop_distance : ℝ))) := by
  have hsf : (stop_distance : ℝ) < (free_distance : ℝ) := by
    norm_num [stop_distance, free_distance]
  refine ⟨?_, ?_, ?_⟩
  · intro theta d h
    unfold road_curvature_factor
    split_ifs with h1 h2
    · rfl
    · exact absurd h2.2 (not_lt.mpr h)
    · rfl
  · intro d h
    unfold car_obstacle_factor
    split_ifs with h1 h2
    · exact absurd h1.2 (not_lt.mpr h)
    · have : (stop_distance : ℝ) < (speed_limit : ℝ) := by
        norm_num [stop_distance, speed_limit]
      exact absurd h2 (not_lt.mpr (le_trans this.le h))
    · rfl
  · intro d h1 h2
    unfold car_obstacle_factor
    rw [if_pos ⟨lt_of_lt_of_le hsf h1, h2⟩]

/-- C2 (failing input): at d = 1e-5, which is at least free_distance, the
source's car_obstacle_factor equals ln(10/3)/ln(5/3), which is not 1. -/
theorem car_obstacle_factor_not_one_past_free :
    (free_distance : ℝ) ≤ 1 / 100000 ∧ car_obstacle_factor (1 / 100000) ≠ 1 := by
  constructor
  · norm_num [free_distance]
  · unfold car_obstacle_factor
    rw [if_pos (by constructor <;> norm_num [stop_distance, speed_limit])]
    have h1 : (1 : ℝ) / 100000 / (stop_distance : ℝ) = 10 / 3 := by
      norm_num [stop_distance]
    have h2 : ((free_distance : ℚ) : ℝ) / (stop_distance : ℝ) = 5 / 3 := by
      norm_num [free_distance, stop_distance]
    rw [h1, h2]
    have hden : 0 < Real.log (5 / 3) := Real.log_pos (by norm_num)
    have hlt : Real.log (5 / 3) < Real.log (10 / 3) :=
      Real.log_lt_log (by norm_num) (by norm_num)
    intro hc
    exact absurd ((div_eq_one_iff_eq hden.ne').mp hc) hlt.ne'

/-- C5 (failing input): with curvature angle pi * 2e-6 and distance 3e-6 the
source's road_curvature_factor evaluates to ln(3/4)/ln(5/4) < 0: the
logarithmic ramp is not clamped to the unit interval. -/
theorem road_curvature_factor_negative :
    road_curvature_factor (Real.pi * (2 / 1000000)) (3 / 1000000) < 0 := by
  unfold road_curvature_factor
  rw [if_neg (mul_ne_zero Real.pi_ne_zero (by norm_num)),
    if_pos (by constructor <;> norm_num [free_distance])]
  have harg : 2 * (Real.pi * (2 / 1000000)) / Real.pi = 4 / 1000000 := by
    field_simp
    ring
  rw [harg]
  have h1 : (3 : ℝ) / 1000000 / (4 / 1000000) = 3 / 4 := by norm_num
  have h2 : ((free_distance : ℚ) : ℝ) / (4 / 1000000) = 5 / 4 := by
    norm_num [free_distance]
  rw [h1, h2]
  exact div_neg_of_neg_of_pos (Real.log_neg (by norm_num) (by norm_num))
    (Real.log_pos (by norm_num))

/-- navigation.find_culdesacs: the nodes whose streets_per_node entry is 1. -/
def find_culdesacs (g : MapGraph) : List ℕ :=
  (g.streets_per_node.filter fun kv => kv.2 == 1).map Prod.fst

/-- simulation.py: the hard-coded destination node. -/
def TEMP_dest_node : ℕ := 53035698

/-- A freshly spawned car dictionary of simulation.init_culdesac_start_location. -/
structure CarInit where
  position : ℚ × ℚ
  velocity : ℚ × ℚ
  acceleration : ℚ × ℚ
  front_view_distance_to_car : ℚ
  front_view_distance_to_node : ℚ
  destination : ℕ
  deriving DecidableEq

/-- simulation.init_culdesac_start_location; the raised ValueError is modelled
as Except.error carrying the culdesac count quoted in its message. -/
def init_culdesac_start_location (g : MapGraph) (n : ℕ) : Except ℕ (List CarInit) :=
  let culdesacs := find_culdesacs g
  if culdesacs.length < n then
    Except.error culdesacs.length
  else
    Except.ok ((culdesacs.take n).map fun start_node =>
      ⟨get_position_of_node g start_node, (0, 0), (0, 0), 10, 0, TEMP_dest_node⟩)

/-- C9: asking for more cars than there are culdesac spawn points raises the
configuration error at initialisation; no car collection is produced. -/
theorem init_culdesac_error_when_overfull (g : MapGraph) (n : ℕ)
    (h : (find_culdesacs g).length < n) :
    init_culdesac_start_location g n = Except.error (find_culdesacs g).length := by
  unfold init_culdesac_start_location
  simp only []
  rw [if_pos h]

/-- C9 witness: one culdesac, two requested cars, error 1 before any car is
built. -/
theorem init_culdesac_error_witness :
    init_culdesac_start_location
      ⟨fun _ => (0, 0), [], fun _ => [], fun _ _ => [], fun _ _ => none,
        fun _ _ => none, [(7, 1), (8, 2)]⟩ 2 = Except.error 1 :=
  init_culdesac_error_when_overfull
    ⟨fun _ => (0, 0), [], fun _ => [], fun _ _ => [], fun _ _ => none,
      fun _ _ => none, [(7, 1), (8, 2)]⟩ 2 (by decide)

/-- A traffic light as navigation.light_obstacles reads it off the lights
dataframe: a row name, its graph node, position, bin, degree, per-face go
flags and outgoing face vectors, and the switch time. -/
structure Light where
  name : ℕ
  node : ℕ
  x : ℚ
  y : ℚ
  xbin : ℕ
  ybin : ℕ
  degree : ℕ
  go_values : List Bool
  out_xvectors : List ℚ
  out_yvectors : List ℚ
  switch_time : ℚ
  deriving DecidableEq

/-- The list comprehension building face_vectors in navigation.light_obstacles:
indexing out-vectors for i below degree; none models the IndexError raised
when degree exceeds the vector lists.  The zip with go_values truncates like
Python's zip. -/
def light_faces (light : Light) : Option (List (Bool × (ℚ × ℚ))) :=
  ((List.range light.degree).mapM fun i => do
      pure (← light.out_xvectors.get? i, ← light.out_yvectors.get? i)).map
    fun vecs => light.go_values.zip vecs

/-- The strip containment test of navigation.light_obstacles for a light. -/
def light_in_strip (fv : FrontView) (l : Light) : Bool :=
  ((upcoming_linspace fv).1.any fun s => isclose s l.x) &&
  ((upcoming_linspace fv).2.any fun s => isclose s l.y)

/-- The light loop of navigation.light_obstacles.  A light inside the strip is
inspected face by face and the first red face parallel to the travel vector
returns the distance (every face yields the same distance, so any-face is
first-face); a light outside the strip returns False at once, so later lights
are never examined; falling off the list is Python's implicit None.  The
parallelism test of the missing models module is a parameter (see
determine_parallel_vectors below). -/
noncomputable def light_loop (isPar : ℚ × ℚ → ℚ × ℚ → Bool) (frontview : FrontView) :
    List Light → Option ℝ
  | [] => none
  | light :: rest =>
    if light_in_strip frontview light then
      match light_faces light with
      | none => none
      | some faces =>
        let car_vector := (light.x - frontview.car.x, light.y - frontview.car.y)
        if faces.any fun f => !f.1 && isPar car_vector f.2 then
          some (magnitude car_vector)
        else light_loop isPar frontview rest
    else none

/-- navigation.light_obstacles. -/
noncomputable def light_obstacles (isPar : ℚ × ℚ → ℚ × ℚ → Bool)
    (frontview : FrontView) (lights : List Light) : Option ℝ :=
  let x_space := (upcoming_linspace frontview).1
  let y_space := (upcoming_linspace frontview).2
  if (x_space.any fun s => s != 0) && (y_space.any fun s => s != 0) then
    let nearby_lights := lights.filter fun l =>
      l.xbin == frontview.car.xbin && l.ybin == frontview.car.ybin
    if nearby_lights ≠ [] then light_loop isPar frontview nearby_lights
    else none
  else none

/-- Modelled from the spec (models.determine_parallel_vectors is not among the
source files): an admissible instance of the angular-tolerance parallelism
test, with tolerance zero: colinear and pointing the same way. -/
def determine_parallel_vectors (v w : ℚ × ℚ) : Bool :=
  v.1 * w.2 == v.2 * w.1 && decide (0 < v.1 * w.1 + v.2 * w.2)

/-- C7 (amended): when exactly one light shares the vehicle's bin and that
light lies in the look-ahead strip, light_obstacles returns the distance to it
precisely when some pedigree face is red and parallel to the travel vector;
with no red parallel face it reports no obstacle.  (With several same-bin
lights the source returns False on the first one outside the strip, so the
single-light premise is needed.) -/
theorem light_obstacles_single_nearby_light (isPar : ℚ × ℚ → ℚ × ℚ → Bool)
    (fv : FrontView) (lights : List Light) (l : Light)
    (faces : List (Bool × (ℚ × ℚ)))
    (hnear : lights.filter (fun l2 => l2.xbin == fv.car.xbin && l2.ybin == fv.car.ybin) = [l])
    (hspace : (((upcoming_linspace fv).1.any fun s => s != 0) &&
      ((upcoming_linspace fv).2.any fun s => s != 0)) = true)
    (hstrip : light_in_strip fv l = true)
    (hfaces : light_faces l = some faces) :
    (light_obstacles isPar fv lights =
        some (magnitude (l.x - fv.car.x, l.y - fv.car.y)) ↔
      (faces.any fun f => !f.1 && isPar (l.x - fv.car.x, l.y - fv.car.y) f.2) = true) ∧
    ((faces.any fun f => !f.1 && isPar (l.x - fv.car.x, l.y - fv.car.y) f.2) = false →
      light_obstacles isPar fv lights = none) := by
  have hrun : light_obstacles isPar fv lights = light_loop isPar fv [l] := by
    unfold light_obstacles
    simp only []
    rw [if_pos hspace, hnear, if_pos (by simp)]
  have hloop : light_loop isPar fv [l] =
      if (faces.any fun f => !f.1 && isPar (l.x - fv.car.x, l.y - fv.car.y) f.2) = true
      then some (magnitude (l.x - fv.car.x, l.y - fv.car.y))
      else none := by
    rw [light_loop, if_pos hstrip, hfaces]
    simp only []
    cases hany2 : (faces.any fun f => !f.1 && isPar (l.x - fv.car.x, l.y - fv.car.y) f.2)
    · rw [if_neg (by simp [hany2]), if_neg (by simp [hany2]), light_loop]
    · rw [if_pos (by simp [hany2]), if_pos (by simp [hany2])]
  rw [hrun, hloop]
  cases hany : (faces.any fun f => !f.1 && isPar (l.x - fv.car.x, l.y - fv.car.y) f.2)
  · rw [if_neg (by simp [hany])]
    exact ⟨by simp, fun _ => rfl⟩
  · rw [if_pos (by simp [hany])]
    exact ⟨by simp, by simp⟩

/-- A red light on the strip of fvC: node 50 at (6, 1), one face pointing
along (1, 0), currently red. -/
def lightRed : Light :=
  ⟨0, 50, 6, 1, 0, 0, 1, [false], [1], [0], 30⟩

/-- A light in the bin of fvC whose position (1000, 1000) is far outside the
strip; it is iterated before lightRed. -/
def lightFar : Light :=
  ⟨1, 51, 1000, 1000, 0, 0, 1, [true], [1], [0], 15⟩

/-- lightRed lies on the look-ahead strip of fvC. -/
lemma light_in_strip_lightRed : light_in_strip fvC lightRed = true := by
  unfold light_in_strip
  rw [upcoming_linspace_fvC]
  norm_num [isclose, List.any_cons, lightRed]

/-- The strip of fvC is non-degenerate on both axes. -/
lemma fvC_space_nonzero :
    ((((upcoming_linspace fvC).1.any fun s => s != 0) &&
      ((upcoming_linspace fvC).2.any fun s => s != 0))) = true := by
  rw [upcoming_linspace_fvC]
  norm_num [List.any_cons]

/-- C7 witness: the single-light characterisation instantiated on fvC and the
red light at (6, 1). -/
theorem light_obstacles_single_nearby_light_witness :
    (light_obstacles determine_parallel_vectors fvC [lightRed] =
        some (magnitude (lightRed.x - fvC.car.x, lightRed.y - fvC.car.y)) ↔
      ([(false, ((1 : ℚ), (0 : ℚ)))].any fun f => !f.1 &&
        determine_parallel_vectors
          (lightRed.x - fvC.car.x, lightRed.y - fvC.car.y) f.2) = true) ∧
    (([(false, ((1 : ℚ), (0 : ℚ)))].any fun f => !f.1 &&
        determine_parallel_vectors
          (lightRed.x - fvC.car.x, lightRed.y - fvC.car.y) f.2) = false →
      light_obstacles determine_parallel_vectors fvC [lightRed] = none) :=
  light_obstacles_single_nearby_light determine_parallel_vectors fvC [lightRed]
    lightRed [(false, (1, 0))] rfl fvC_space_nonzero light_in_strip_lightRed rfl

/-- C7 counterexample: lightRed is in the vehicle's bin and on its strip with
a red face parallel to the travel vector, yet with the out-of-strip lightFar
iterated first light_obstacles reports no obstacle at all. -/
theorem light_obstacles_misses_red_light :
    light_obstacles determine_parallel_vectors fvC [lightFar, lightRed] = none ∧
    (lightRed.xbin == fvC.car.xbin && lightRed.ybin == fvC.car.ybin) = true ∧
    light_in_strip fvC lightRed = true ∧
    light_faces lightRed = some [(false, (1, 0))] ∧
    determine_parallel_vectors (lightRed.x - fvC.car.x, lightRed.y - fvC.car.y)
      (1, 0) = true := by
  refine ⟨?_, rfl, light_in_strip_lightRed, rfl, ?_⟩
  · unfold light_obstacles
    simp only []
    rw [if_pos fvC_space_nonzero]
    rw [show ([lightFar, lightRed].filter fun l =>
        l.xbin == fvC.car.xbin && l.ybin == fvC.car.ybin) = [lightFar, lightRed] from rfl]
    rw [if_pos (by simp)]
    rw [light_loop, if_neg ?hfar]
    case hfar =>
      unfold light_in_strip
      rw [upcoming_linspace_fvC]
      norm_num [isclose, List.any_cons, lightFar]
  · norm_num [determine_parallel_vectors, lightRed, fvC, mkFrontView, carC, beq_iff_eq]

/-- simulation.update_velocity: the source's body is empty (a docstring only),
so every call returns None; none models that missing velocity. -/
def update_velocity (_car : Car) : Option (ℚ × ℚ) :=
  none

/-- StateView.max_cars: the congestion threshold for a bin. -/
def max_cars : ℕ := 10

/-- The plot axis StateView receives: x and y bounds. -/
structure Axis where
  x0 : ℚ
  x1 : ℚ
  y0 : ℚ
  y1 : ℚ

/-- numpy.arange over ℚ: a, a + step, ... while below b. -/
def arangeQ (a b step : ℚ) : List ℚ :=
  (List.range (((b - a) / step).ceil.toNat)).map fun i => a + step * i

/-- numpy.digitize for an increasing bin list: the count of bin edges at or
below x. -/
def digitizeQ (x : ℚ) (bins : List ℚ) : ℕ :=
  (bins.filter fun b => b ≤ x).length

/-- The double-counted-bin removal loop of StateView.get_bins_in_route: keep
an index pair only when it differs from its successor, always keeping the
last. -/
def dedupe_consecutive : List (ℕ × ℕ) → List (ℕ × ℕ)
  | [] => []
  | [a] => [a]
  | a :: b :: rest =>
    if a = b then dedupe_consecutive (b :: rest)
    else a :: dedupe_consecutive (b :: rest)

/-- StateView.get_bins_in_route; indexing x_inds[-1] raises on an empty route,
modelled by none. -/
def get_bins_in_route (g : MapGraph) (axis : Axis) (route : List ℕ) :
    Option (List ℕ × List ℕ) :=
  let xbins := arangeQ axis.x0 axis.x1 200
  let ybins := arangeQ axis.y0 axis.y1 200
  let inds := route.map fun node =>
    (digitizeQ (get_position_of_node g node).1 xbins,
     digitizeQ (get_position_of_node g node).2 ybins)
  match inds with
  | [] => none
  | _ :: _ => some (dedupe_consecutive inds).unzip

/-- StateView.get_traffic_bins: the route bins whose car population exceeds
max_cars. -/
def get_traffic_bins (g : MapGraph) (axis : Axis) (cars : List Car)
    (route : List ℕ) : Option (List (ℕ × ℕ)) :=
  (get_bins_in_route g axis route).map fun bins =>
    (bins.1.zip bins.2).filter fun bin =>
      max_cars < (cars.filter fun c => c.xbin == bin.1 && c.ybin == bin.2).length

/-- A stable argsort over ℚ by insertion, standing in for numpy.argsort of the
switch times (the comparisons below it are strict, so the sort's tie order is
irrelevant to the theorems). -/
def insert_by_val (p : ℕ × ℚ) : List (ℕ × ℚ) → List (ℕ × ℚ)
  | [] => [p]
  | q :: rest => if p.2 < q.2 then p :: q :: rest else q :: insert_by_val p rest

/-- The index permutation sorting a ℚ list. -/
def argsortQ (l : List ℚ) : List ℕ :=
  (((List.range l.length).zip l).foldl (fun acc p => insert_by_val p acc) []).map Prod.fst

/-- StateView.get_lights_in_route: the first light index matching each route
node, then reordered by ascending switch time. -/
def get_lights_in_route (lights : List Light) (route : List ℕ) : List ℕ :=
  let light_locs := route.filterMap fun node => lights.findIdx? fun l => l.node == node
  (argsortQ (lights.map Light.switch_time)).filter fun id => light_locs.contains id

/-- navigation.eta: route length over the 250 speed limit plus half the summed
switch times of lights on the route; a missing edge raises, modelled by
none. -/
def eta (g : MapGraph) (car : Car) (lights : List Light) : Option ℚ := do
  let route := car.route
  let lengths ← (route.zip route.tail).mapM fun uv => g.edgeLength uv.1 uv.2
  let eta_from_distance := lengths.sum / 250
  let light_locs := route.filterMap fun node => lights.findIdx? fun l => l.node == node
  let expected_wait := ((light_locs.filterMap fun i => lights.get? i).map
    Light.switch_time).sum / 2
  pure (eta_from_distance + expected_wait)

/-- The values StateView.determine_state can produce: a one-hot state list,
the literal string 'not finished' of the unfinished re-route branch, or
Python's implicit None when only congested bins are found. -/
inductive CarState where
  | flags (l : List ℕ)
  | not_finished
  | py_none
  deriving DecidableEq

/-- StateView.determine_state; none models an exception.  The re-route branch
computes a reroute anchor and candidate directions, discards them, and
returns 'not finished'; np.where on a missing light node raises, and a numpy
array indexed with -1 yields its last element. -/
def determine_state (g : MapGraph) (axis : Axis) (cars : List Car)
    (lights : List Light) (car : Car) : Option CarState :=
  match car.route with
  | [] => none
  | r0 :: _ =>
    if r0 ≠ car.destination then
      let light_locs := get_lights_in_route lights car.route
      match get_traffic_bins g axis cars car.route with
      | none => none
      | some traffic_bins =>
        if light_locs ≠ [] ∨ traffic_bins ≠ [] then
          if light_locs ≠ [] then do
            let lloc ← light_locs.getLast?
            let light ← lights.get? lloc
            let idx ← car.route.findIdx? fun n => n == light.node
            let reroute_node ←
              if idx = 0 then car.route.getLast? else car.route.get? (idx - 1)
            let _directions := (g.adj reroute_node).filter fun d =>
              ! car.route.contains d
            pure CarState.not_finished
          else some CarState.py_none
        else some (CarState.flags [0, 0, 0, 1, 0, 0])
    else some (CarState.flags [0, 0, 0, 0, 0, 1])

/-- A car whose route is exhausted: its single route entry is its
destination. -/
def carArrived : Car :=
  ⟨4, 50, 60, 2, 3, [], [], [7], 7⟩

/-- C8 (failing input): a route-exhausted car is classified as arrived (the
sixth and only set flag), but update_velocity, whose body the source never
wrote, returns None rather than a zero velocity, so no tick sets the arrived
car's velocity to zero. -/
theorem arrived_state_but_velocity_none :
    determine_state trivialGraph ⟨0, 1000, 0, 1000⟩ [carArrived] [] carArrived =
      some (CarState.flags [0, 0, 0, 0, 0, 1]) ∧
    update_velocity carArrived = none := by
  constructor
  · unfold determine_state
    simp only []
    rw [show carArrived.route = [7] from rfl]
    simp only []
    rw [if_neg (by decide)]
  · rfl

/-- navigation.lines_to_node: the per-edge point lists along the shortest path
between two nodes; an edge's geometry when present (choosing the shortest
parallel edge is folded into the MapGraph model), else the straight
node-to-node segment. -/
def lines_to_node (g : MapGraph) (origin destination : ℕ) : List (List (ℚ × ℚ)) :=
  let route := g.shortestPath origin destination
  (route.zip route.tail).map fun uv =>
    match g.edgeGeometry uv.1 uv.2 with
    | some geom => geom
    | none => [g.pos uv.1, g.pos uv.2]

/-- navigation.shortest_path_lines_nx: textually the same routine as
lines_to_node in the source. -/
def shortest_path_lines_nx (g : MapGraph) (origin destination : ℕ) :
    List (List (ℚ × ℚ)) :=
  lines_to_node g origin destination

/-- networkx's degree of a node of the directed multigraph: its incident edge
count, outgoing plus incoming. -/
def degreeOf (g : MapGraph) (node : ℕ) : ℕ :=
  (g.edges.filter fun e => e.1 == node).length +
    (g.edges.filter fun e => e.2 == node).length

/-- The reciprocal-pair removal of determine_pedigree for one left edge:
Python pops from right_edges while enumerate iterates it, so the element
after a popped one stays but is never tested. -/
def popReciprocal (left : ℕ × ℕ) : List (ℕ × ℕ) → List (ℕ × ℕ)
  | [] => []
  | [r] => if left.2 = r.1 ∧ r.2 = left.1 then [] else [r]
  | r :: s :: rest2 =>
    if left.2 = r.1 ∧ r.2 = left.1 then s :: popReciprocal left rest2
    else r :: popReciprocal left (s :: rest2)

/-- The deduplicated incident edge list of determine_pedigree: all outgoing
edges, then the incoming edges that survive the reciprocal removal. -/
def intersection_edges (g : MapGraph) (node_id : ℕ) : List (ℕ × ℕ) :=
  let left_edges := g.edges.filter fun e => e.1 == node_id
  let right_edges := left_edges.foldl (fun rs left => popReciprocal left rs)
    (g.edges.filter fun e => e.2 == node_id)
  left_edges ++ right_edges

/-- The out-node of each deduplicated incident edge. -/
def pedigree_out_nodes (g : MapGraph) (node_id : ℕ) : List ℕ :=
  (intersection_edges g node_id).map fun e => if e.1 == node_id then e.2 else e.1

/-- navigation.determine_pedigree: one direction vector per resolvable face,
from the intersection to the second point of the first line toward the
out-node; an IndexError (no second point) drops the face via the except
branch. -/
def determine_pedigree (g : MapGraph) (node_id : ℕ) : List (ℚ × ℚ) :=
  let position := get_position_of_node g node_id
  (pedigree_out_nodes g node_id).filterMap fun node =>
    ((lines_to_node g node_id node).head?.bind fun line => line.get? 1).map
      fun point => (point.1 - position.1, point.2 - position.2)

/-- popReciprocal never lengthens the list. -/
lemma popReciprocal_length_le (left : ℕ × ℕ) :
    ∀ (n : ℕ) (rs : List (ℕ × ℕ)), rs.length ≤ n →
      (popReciprocal left rs).length ≤ rs.length := by
  intro n
  induction n with
  | zero =>
    intro rs h
    rw [List.length_eq_zero.mp (Nat.le_zero.mp h)]
    exact le_refl _
  | succ n ih =>
    intro rs h
    match rs with
    | [] => exact le_refl _
    | [r] =>
      rw [popReciprocal]
      split_ifs <;> simp
    | r :: s :: rest2 =>
      rw [popReciprocal]
      split_ifs with hm
      · have h2 := ih rest2 (by simp only [List.length_cons] at h ⊢; omega)
        simp only [List.length_cons]
        omega
      · have h2 := ih (s :: rest2) (by simp only [List.length_cons] at h ⊢; omega)
        simp only [List.length_cons] at h2 ⊢
        omega

/-- Folding the reciprocal removal over the left edges never lengthens the
right edge list. -/
lemma foldl_popReciprocal_length_le (lefts : List (ℕ × ℕ)) :
    ∀ rs : List (ℕ × ℕ),
      (lefts.foldl (fun rs left => popReciprocal left rs) rs).length ≤ rs.length := by
  induction lefts with
  | nil => intro rs; exact le_refl _
  | cons a t ih =>
    intro rs
    calc (t.foldl (fun rs left => popReciprocal left rs) (popReciprocal a rs)).length
        ≤ (popReciprocal a rs).length := ih _
      _ ≤ rs.length := popReciprocal_length_le a rs.length rs (le_refl _)

/-- C4 (amended): the pedigree is at most as long as the node's degree —
reciprocal edge pairs are merged and unresolvable faces dropped, so equality
fails in general — and every pedigree vector points from the intersection's
position to the second point of the first line of geometry toward some
out-node of the deduplicated incident edges. -/
theorem pedigree_length_and_directions (g : MapGraph) (node_id : ℕ) :
    (determine_pedigree g node_id).length ≤ degreeOf g node_id ∧
    ∀ v ∈ determine_pedigree g node_id, ∃ node ∈ pedigree_out_nodes g node_id,
      ∃ point,
        ((lines_to_node g node_id node).head?.bind fun line => line.get? 1) =
          some point ∧
        v = (point.1 - (get_position_of_node g node_id).1,
             point.2 - (get_position_of_node g node_id).2) := by
  constructor
  · calc (determine_pedigree g node_id).length
        ≤ (pedigree_out_nodes g node_id).length := List.length_filterMap_le _ _
      _ = (intersection_edges g node_id).length := List.length_map _ _
      _ ≤ degreeOf g node_id := by
          unfold intersection_edges degreeOf
          simp only [List.length_append]
          exact Nat.add_le_add_left (foldl_popReciprocal_length_le _ _) _
  · intro v hv
    obtain ⟨node, hnode, heq⟩ := List.mem_filterMap.mp hv
    obtain ⟨point, hpoint, hval⟩ := Option.map_eq_some'.mp heq
    exact ⟨node, hnode, point, hpoint, hval.symm⟩

/-- A four-way two-street intersection: node 0 joined to nodes 1 and 2 by
reciprocal edge pairs, no stored line geometry. -/
def g4 : MapGraph :=
  ⟨fun n => if n = 1 then (10, 0) else if n = 2 then (0, 10) else (0, 0),
   [(0, 1), (1, 0), (0, 2), (2, 0)],
   fun _ => [],
   fun a b => if a = b then [a] else [a, b],
   fun _ _ => none, fun _ _ => none, []⟩

/-- C4 counterexample: at the four-way intersection the pedigree holds two
vectors while the node degree is four, so len(pedigree) == degree fails. -/
theorem pedigree_shorter_than_degree :
    (determine_pedigree g4 0).length = 2 ∧ degreeOf g4 0 = 4 ∧ (2 : ℕ) ≠ 4 :=
  ⟨rfl, rfl, by decide⟩

/-- Euclidean distance between two points, np.linalg.norm of their
difference. -/
noncomputable def dist2D (p q : ℚ × ℚ) : ℝ :=
  magnitude (p.1 - q.1, p.2 - q.2)

open Classical in
/-- The scan of np.argsort(...)[0]: running first index of the minimum. -/
noncomputable def argmin_idx_aux (bestIdx : ℕ) (bestVal : ℝ) (i : ℕ) :
    List ℝ → ℕ
  | [] => bestIdx
  | x :: xs =>
    if x < bestVal then argmin_idx_aux i x (i + 1) xs
    else argmin_idx_aux bestIdx bestVal (i + 1) xs

/-- np.argsort(sum_three_node_dist).argsort()[0] of build_new_route: the first
index of a minimal entry (the comparisons in the theorems below are strict,
so the sort's tie order is irrelevant). -/
noncomputable def argmin_idx : List ℝ → ℕ
  | [] => 0
  | x :: xs => argmin_idx_aux 0 x 1 xs

/-- One candidate's contribution to sum_three_node_dist in build_new_route:
its twice-out neighbours lose the current direction when present; a candidate
left without neighbours contributes the 'disqualified' marker (none) and then
its distance sum as well, exactly as the source appends both. -/
noncomputable def sum_three_node_dist_entries (g : MapGraph)
    (next_nodes_pos : List (ℚ × ℚ)) (direction : ℕ)
    (out_from_direction : List ℕ) : List (Option ℝ) :=
  (out_from_direction.map fun node =>
    let twice_out := (g.adj node).erase direction
    let s : ℝ := (next_nodes_pos.map fun p =>
      dist2D p (get_position_of_node g node)).sum
    if twice_out = [] then [none, some s] else [some s]).flatten

/-- The loop state of build_new_route: the node departed from, the node the
search stands on, and the accumulated new route. -/
structure RerouteState where
  reroute_node : ℕ
  direction : ℕ
  new_route : List ℕ

/-- What one iteration of the build_new_route while-loop does. -/
inductive StepResult where
  | continue_search (s : RerouteState)
  | reconnected (new_route : List ℕ)

/-- One iteration of build_new_route's while-loop.  none models an exception
or the numpy degradation: out_from_direction.index raises when reroute_node
is not a neighbour of direction, and with a 'disqualified' marker appended
numpy coerces the sum array to strings, modelled as a failure (no input in
this file reaches either). -/
noncomputable def reroute_step (g : MapGraph) (route : List ℕ)
    (next_nodes_pos : List (ℚ × ℚ)) (reroute_index : ℕ) (s : RerouteState) :
    Option StepResult :=
  let out0 := g.adj s.direction
  if s.reroute_node ∈ out0 then
    let out_from_direction := out0.erase s.reroute_node
    let entries := sum_three_node_dist_entries g next_nodes_pos s.direction
      out_from_direction
    if entries.all Option.isSome then
      match out_from_direction.get? (argmin_idx entries.reduceOption) with
      | none => none
      | some next_node =>
        let new_route := s.new_route ++ [next_node]
        if (route.drop (reroute_index + 1)).contains next_node then
          match route.findIdx? fun n => n == next_node with
          | none => none
          | some start_at_index =>
            some (StepResult.reconnected (new_route ++ route.drop (start_at_index + 1)))
        else some (StepResult.continue_search ⟨s.direction, next_node, new_route⟩)
    else none
  else none

/-- Where the while-loop of build_new_route stands after a number of
iterations. -/
inductive RerouteOutcome where
  | running (s : RerouteState)
  | reconnected (new_route : List ℕ)
  | crashed

/-- The while-loop of build_new_route run for a given number of iterations;
the source has no iteration bound, so running states simply keep stepping. -/
noncomputable def reroute_run (g : MapGraph) (route : List ℕ)
    (next_nodes_pos : List (ℚ × ℚ)) (reroute_index : ℕ) :
    ℕ → RerouteState → RerouteOutcome
  | 0, s => RerouteOutcome.running s
  | fuel + 1, s =>
    match reroute_step g route next_nodes_pos reroute_index s with
    | none => RerouteOutcome.crashed
    | some (StepResult.reconnected r) => RerouteOutcome.reconnected r
    | some (StepResult.continue_search s2) =>
      reroute_run g route next_nodes_pos reroute_index fuel s2

/-- Modelled from the spec (models.new_route_decompiler is not among the
source files): path decompilation keeps the waypoint sequence and removes the
consecutive duplicate points where edge geometries meet. -/
def new_route_decompiler : List (ℚ × ℚ) → List (ℚ × ℚ)
  | [] => []
  | p :: rest =>
    match new_route_decompiler rest with
    | [] => [p]
    | q :: tail => if p = q then q :: tail else p :: q :: tail

/-- navigation.build_new_route, fuel-indexed: the route prefix plus the chosen
direction, then the greedy while-loop, then the new path glued from the first
line of each inter-node geometry.  The source's loop is unbounded; a run that
is still going after the given fuel yields none here. -/
noncomputable def build_new_route (g : MapGraph) (fuel : ℕ) (route : List ℕ)
    (reroute_node : ℕ) (direction : ℕ) :
    Option (List ℕ × List ℚ × List ℚ) :=
  match route.findIdx? fun n => n == reroute_node with
  | none => none
  | some reroute_index =>
    let next_nodes_pos := ((route.drop (reroute_index + 1)).take 3).map
      (get_position_of_node g)
    let init : RerouteState :=
      ⟨reroute_node, direction, route.take (reroute_index + 1) ++ [direction]⟩
    match reroute_run g route next_nodes_pos reroute_index fuel init with
    | RerouteOutcome.running _ => none
    | RerouteOutcome.crashed => none
    | RerouteOutcome.reconnected new_route =>
      let lines := (new_route.zip new_route.tail).map fun uv =>
        shortest_path_lines_nx g uv.1 uv.2
      match lines.mapM List.head? with
      | none => none
      | some firsts =>
        let new_clean_path := new_route_decompiler firsts.flatten
        some (new_route, new_clean_path.map Prod.fst, new_clean_path.map Prod.snd)

/-- The re-route trap graph: route nodes 0..4 along the x axis with node 0
far west, and a detour square 5, 6, 7, 8 north of the route reachable from
node 0.  Greedy selection sends the search around the square forever. -/
def g3 : MapGraph :=
  ⟨fun n =>
    if n = 0 then (-100, 0) else if n = 1 then (10, 0)
    else if n = 2 then (20, 0) else if n = 3 then (30, 0)
    else if n = 4 then (40, 0) else if n = 5 then (0, 10)
    else if n = 6 then (5, 14) else if n = 7 then (0, 18)
    else if n = 8 then (-5, 14) else (0, 0),
   [(0, 1), (1, 2), (2, 3), (3, 4), (0, 5), (5, 6), (6, 7), (7, 8), (8, 5)],
   fun n =>
    if n = 0 then [1, 5] else if n = 1 then [0, 2]
    else if n = 2 then [1, 3] else if n = 3 then [2, 4]
    else if n = 4 then [3] else if n = 5 then [0, 6, 8]
    else if n = 6 then [5, 7] else if n = 7 then [6, 8]
    else if n = 8 then [7, 5] else [],
   fun a b => if a = b then [a] else [a, b],
   fun _ _ => none, fun _ _ => none, []⟩

/-- The original route through the trap graph. -/
def route3 : List ℕ := [0, 1, 2, 3, 4]

/-- The positions of the three original-route nodes after the departure
node. -/
def npos3 : List (ℚ × ℚ) := [(10, 0), (20, 0), (30, 0)]

/-- Stepping from the square's south corner: the single remaining neighbour 7
is chosen. -/
lemma reroute_step_5_6 (nr : List ℕ) :
    reroute_step g3 route3 npos3 0 ⟨5, 6, nr⟩ =
      some (StepResult.continue_search ⟨6, 7, nr ++ [7]⟩) := rfl

/-- Stepping on around the square: 8 follows 7. -/
lemma reroute_step_6_7 (nr : List ℕ) :
    reroute_step g3 route3 npos3 0 ⟨6, 7, nr⟩ =
      some (StepResult.continue_search ⟨7, 8, nr ++ [8]⟩) := rfl

/-- Stepping on around the square: 5 follows 8. -/
lemma reroute_step_7_8 (nr : List ℕ) :
    reroute_step g3 route3 npos3 0 ⟨7, 8, nr⟩ =
      some (StepResult.continue_search ⟨8, 5, nr ++ [5]⟩) := rfl

/-- A squared-sum comparison transfers to dist2D. -/
lemma dist2D_le_dist2D (p q1 q2 : ℚ × ℚ)
    (h : (p.1 - q1.1) ^ 2 + (p.2 - q1.2) ^ 2 ≤ (p.1 - q2.1) ^ 2 + (p.2 - q2.2) ^ 2) :
    dist2D p q1 ≤ dist2D p q2 := by
  unfold dist2D magnitude
  apply Real.sqrt_le_sqrt
  exact_mod_cast h

/-- A perfect-square squared sum evaluates dist2D exactly. -/
lemma dist2D_eq_of_sq (p q : ℚ × ℚ) (c : ℚ) (hc : 0 ≤ c)
    (h : (p.1 - q.1) ^ 2 + (p.2 - q.2) ^ 2 = c ^ 2) : dist2D p q = (c : ℝ) := by
  unfold dist2D magnitude
  have h2 : ((p.1 - q.1 : ℚ) : ℝ) ^ 2 + ((p.2 - q.2 : ℚ) : ℝ) ^ 2 = ((c : ℚ) : ℝ) ^ 2 := by
    exact_mod_cast h
  rw [h2]
  exact Real.sqrt_sq (by exact_mod_cast hc)

/-- A square bound on the squared sum bounds dist2D. -/
lemma dist2D_le_of_sq (p q : ℚ × ℚ) (c : ℚ) (hc : 0 ≤ c)
    (h : (p.1 - q.1) ^ 2 + (p.2 - q.2) ^ 2 ≤ c ^ 2) : dist2D p q ≤ (c : ℝ) := by
  unfold dist2D magnitude
  rw [show ((c : ℚ) : ℝ) = Real.sqrt (((c : ℚ) : ℝ) ^ 2) from
    (Real.sqrt_sq (by exact_mod_cast hc)).symm]
  apply Real.sqrt_le_sqrt
  exact_mod_cast h

/-- The greedy sum from the square's east corner 6 is at most the one from the
west corner 8. -/
lemma sum6_le_sum8 :
    (npos3.map fun p => dist2D p (get_position_of_node g3 6)).sum ≤
      (npos3.map fun p => dist2D p (get_position_of_node g3 8)).sum := by
  rw [show get_position_of_node g3 6 = (5, 14) from rfl,
    show get_position_of_node g3 8 = (-5, 14) from rfl]
  simp only [npos3, List.map_cons, List.map_nil, List.sum_cons, List.sum_nil, add_zero]
  have h1 := dist2D_le_dist2D (10, 0) (5, 14) (-5, 14) (by norm_num)
  have h2 := dist2D_le_dist2D (20, 0) (5, 14) (-5, 14) (by norm_num)
  have h3 := dist2D_le_dist2D (30, 0) (5, 14) (-5, 14) (by norm_num)
  gcongr

/-- The greedy sum from corner 6 is strictly below the one from the route
start 0: it is at most 15 + 21 + 29, while node 0 sits 110, 120 and 130 away
from the three targets. -/
lemma sum6_lt_sum0 :
    (npos3.map fun p => dist2D p (get_position_of_node g3 6)).sum <
      (npos3.map fun p => dist2D p (get_position_of_node g3 0)).sum := by
  rw [show get_position_of_node g3 6 = (5, 14) from rfl,
    show get_position_of_node g3 0 = (-100, 0) from rfl]
  simp only [npos3, List.map_cons, List.map_nil, List.sum_cons, List.sum_nil, add_zero]
  have h1 := dist2D_le_of_sq (10, 0) (5, 14) 15 (by norm_num) (by norm_num)
  have h2 := dist2D_le_of_sq (20, 0) (5, 14) 21 (by norm_num) (by norm_num)
  have h3 := dist2D_le_of_sq (30, 0) (5, 14) 29 (by norm_num) (by norm_num)
  have e1 := dist2D_eq_of_sq (10, 0) (-100, 0) 110 (by norm_num) (by norm_num)
  have e2 := dist2D_eq_of_sq (20, 0) (-100, 0) 120 (by norm_num) (by norm_num)
  have e3 := dist2D_eq_of_sq (30, 0) (-100, 0) 130 (by norm_num) (by norm_num)
  rw [e1, e2, e3]
  have := add_le_add (add_le_add h1 h2) h3
  push_cast at this ⊢
  linarith

/-- The candidate sums seen from node 5 with the search arriving from 0: the
square corners 6 and 8. -/
lemma entries_from_0_5 :
    sum_three_node_dist_entries g3 npos3 5 ((g3.adj 5).erase 0) =
      [some ((npos3.map fun p => dist2D p (get_position_of_node g3 6)).sum),
       some ((npos3.map fun p => dist2D p (get_position_of_node g3 8)).sum)] := by
  unfold sum_three_node_dist_entries
  rw [show (g3.adj 5).erase 0 = [6, 8] from rfl]
  simp only [List.map_cons, List.map_nil]
  rw [if_neg (by decide), if_neg (by decide)]
  rfl

/-- Greedy choice at the first step: corner 6 beats corner 8. -/
lemma argmin_from_0_5 :
    argmin_idx ([some ((npos3.map fun p => dist2D p (get_position_of_node g3 6)).sum),
      some ((npos3.map fun p => dist2D p (get_position_of_node g3 8)).sum)].reduceOption) = 0 := by
  rw [show ([some ((npos3.map fun p => dist2D p (get_position_of_node g3 6)).sum),
      some ((npos3.map fun p => dist2D p (get_position_of_node g3 8)).sum)].reduceOption) =
      [(npos3.map fun p => dist2D p (get_position_of_node g3 6)).sum,
       (npos3.map fun p => dist2D p (get_position_of_node g3 8)).sum] from rfl]
  rw [argmin_idx, argmin_idx_aux, if_neg (not_lt.mpr sum6_le_sum8)]
  rfl

/-- The first loop iteration: departing 0 toward 5, the greedy step picks
corner 6 and enters the square. -/
lemma reroute_step_0_5 (nr : List ℕ) :
    reroute_step g3 route3 npos3 0 ⟨0, 5, nr⟩ =
      some (StepResult.continue_search ⟨5, 6, nr ++ [6]⟩) := by
  unfold reroute_step
  simp only []
  rw [if_pos (show (0 : ℕ) ∈ g3.adj 5 by decide)]
  rw [entries_from_0_5]
  simp only [List.all_cons, List.all_nil, Option.isSome_some, Bool.and_self, if_true]
  rw [argmin_from_0_5]
  rfl

/-- The candidate sums seen from node 5 with the search arriving from 8: the
route start 0 and the corner 6. -/
lemma entries_from_8_5 :
    sum_three_node_dist_entries g3 npos3 5 ((g3.adj 5).erase 8) =
      [some ((npos3.map fun p => dist2D p (get_position_of_node g3 0)).sum),
       some ((npos3.map fun p => dist2D p (get_position_of_node g3 6)).sum)] := by
  unfold sum_three_node_dist_entries
  rw [show (g3.adj 5).erase 8 = [0, 6] from rfl]
  simp only [List.map_cons, List.map_nil]
  rw [if_neg (by decide), if_neg (by decide)]
  rfl

/-- Greedy choice when the square returns to node 5: corner 6 beats the
distant route start 0, so the search re-enters the square. -/
lemma argmin_from_8_5 :
    argmin_idx ([some ((npos3.map fun p => dist2D p (get_position_of_node g3 0)).sum),
      some ((npos3.map fun p => dist2D p (get_position_of_node g3 6)).sum)].reduceOption) = 1 := by
  rw [show ([some ((npos3.map fun p => dist2D p (get_position_of_node g3 0)).sum),
      some ((npos3.map fun p => dist2D p (get_position_of_node g3 6)).sum)].reduceOption) =
      [(npos3.map fun p => dist2D p (get_position_of_node g3 0)).sum,
       (npos3.map fun p => dist2D p (get_position_of_node g3 6)).sum] from rfl]
  rw [argmin_idx, argmin_idx_aux, if_pos sum6_lt_sum0]
  rfl

/-- Closing the square: back at node 5 from corner 8, the greedy step picks
corner 6 again instead of returning to the route. -/
lemma reroute_step_8_5 (nr : List ℕ) :
    reroute_step g3 route3 npos3 0 ⟨8, 5, nr⟩ =
      some (StepResult.continue_search ⟨5, 6, nr ++ [6]⟩) := by
  unfold reroute_step
  simp only []
  rw [if_pos (show (8 : ℕ) ∈ g3.adj 5 by decide)]
  rw [entries_from_8_5]
  simp only [List.all_cons, List.all_nil, Option.isSome_some, Bool.and_self, if_true]
  rw [argmin_from_8_5]
  rfl

/-- The (reroute_node, direction) pairs the trap graph's loop cycles
through. -/
def cyclePairs : List (ℕ × ℕ) := [(0, 5), (5, 6), (6, 7), (7, 8), (8, 5)]

/-- Every cycle state steps to another cycle state and never reconnects or
crashes. -/
lemma cycle_invariant (s : RerouteState)
    (h : (s.reroute_node, s.direction) ∈ cyclePairs) :
    ∃ s2, reroute_step g3 route3 npos3 0 s =
        some (StepResult.continue_search s2) ∧
      (s2.reroute_node, s2.direction) ∈ cyclePairs := by
  obtain ⟨rn, dir, nr⟩ := s
  simp only [cyclePairs, List.mem_cons, List.not_mem_nil, or_false,
    Prod.mk.injEq] at h
  rcases h with ⟨h1, h2⟩ | ⟨h1, h2⟩ | ⟨h1, h2⟩ | ⟨h1, h2⟩ | ⟨h1, h2⟩ <;>
    subst h1 <;> subst h2
  · exact ⟨⟨5, 6, nr ++ [6]⟩, reroute_step_0_5 nr, by simp [cyclePairs]⟩
  · exact ⟨⟨6, 7, nr ++ [7]⟩, reroute_step_5_6 nr, by simp [cyclePairs]⟩
  · exact ⟨⟨7, 8, nr ++ [8]⟩, reroute_step_6_7 nr, by simp [cyclePairs]⟩
  · exact ⟨⟨8, 5, nr ++ [5]⟩, reroute_step_7_8 nr, by simp [cyclePairs]⟩
  · exact ⟨⟨5, 6, nr ++ [6]⟩, reroute_step_8_5 nr, by simp [cyclePairs]⟩

/-- From any cycle state the loop is still running after any number of
iterations. -/
lemma reroute_run_stays_running :
    ∀ (fuel : ℕ) (s : RerouteState), (s.reroute_node, s.direction) ∈ cyclePairs →
      ∃ s2, reroute_run g3 route3 npos3 0 fuel s = RerouteOutcome.running s2 := by
  intro fuel
  induction fuel with
  | zero => exact fun s _ => ⟨s, rfl⟩
  | succ n ih =>
    intro s h
    obtain ⟨s2, hstep, hmem⟩ := cycle_invariant s h
    rw [reroute_run, hstep]
    exact ih s2 hmem

/-- C3: the re-route search of build_new_route has no iteration bound and
need not terminate: departing route [0..4] at node 0 toward node 5 of the
trap graph, the while-loop state re-enters its four-state cycle forever, so
after any number of iterations it is still running, and build_new_route never
returns a spliced route, nor any failure outcome — the source would loop
indefinitely. -/
theorem build_new_route_unbounded_loop :
    ∀ fuel : ℕ,
      (∃ s, reroute_run g3 route3 npos3 0 fuel ⟨0, 5, [0, 5]⟩ =
        RerouteOutcome.running s) ∧
      build_new_route g3 fuel route3 0 5 = none := by
  intro fuel
  have h1 := reroute_run_stays_running fuel ⟨0, 5, [0, 5]⟩ (by simp [cyclePairs])
  refine ⟨h1, ?_⟩
  obtain ⟨s, hs⟩ := h1
  unfold build_new_route
  rw [show (route3.findIdx? fun n => n == 0) = some 0 from rfl]
  simp only []
  rw [show ((route3.drop (0 + 1)).take 3).map (get_position_of_node g3) = npos3
      from rfl,
    show route3.take (0 + 1) ++ [5] = [0, 5] from rfl]
  rw [hs]

end Traffic
